import Mathlib

set_option maxRecDepth 4000

/-!
Shallow embedding of `src/runpod-workers/multitalk/handler.py`.

The handler is a RunPod serverless worker: it validates an inbound job
payload, downloads and validates an image and an audio file, binds caller
parameters into a ComfyUI workflow template, submits the workflow, polls the
engine's history endpoint for completion, and uploads the resulting video.

Python values (the JSON-like data the handler manipulates) are modelled by
`PyVal`; Python floats are modelled by rationals (no claim depends on
floating-point rounding).  External effects (HTTP transfers, the file
system, the engine, the random generator) are modelled by explicit
environment parameters, and each Python function of the source becomes a
Lean function of the same name over those parameters.
-/

/-- Python/JSON values as manipulated by the handler.  Floats are modelled
as rationals; dictionaries as association lists with string keys (JSON
object keys are always strings). -/
inductive PyVal where
  | str (s : String)
  | int (n : Int)
  | float (q : Rat)
  | bool (b : Bool)
  | pynone
  | list (xs : List PyVal)
  | dict (fs : List (String × PyVal))

/-- First-match association-list lookup (Python dict indexing/`.get`). -/
def lookupL (fs : List (String × PyVal)) (k : String) : Option PyVal :=
  match fs with
  | [] => none
  | (k2, v) :: rest => if k2 = k then some v else lookupL rest k

/-- Python `d[k] = v` on a dict: replace the value at `k` in place, or
append the binding when `k` is absent. -/
def setKey (fs : List (String × PyVal)) (k : String) (v : PyVal) :
    List (String × PyVal) :=
  match fs with
  | [] => [(k, v)]
  | (k2, v2) :: rest =>
    if k2 = k then (k2, v) :: rest else (k2, v2) :: setKey rest k v

/-- Python `==` between a value and a string literal: true only for an
equal string (comparisons across types are `False`, not an error). -/
def pyEqStr (v : PyVal) (t : String) : Bool :=
  match v with
  | PyVal.str s => s == t
  | _ => false

/-- Python `len()`: defined for strings, lists and dicts; `none` models a
`TypeError`. -/
def pyLen? (v : PyVal) : Option Nat :=
  match v with
  | PyVal.str s => some s.length
  | PyVal.list xs => some xs.length
  | PyVal.dict fs => some fs.length
  | _ => none

/-- Iterating a Python value (`for x in v`): lists yield elements, strings
yield one-character strings, dicts yield their keys; `none` models a
`TypeError` for non-iterables. -/
def pyIter? (v : PyVal) : Option (List PyVal) :=
  match v with
  | PyVal.list xs => some xs
  | PyVal.str s => some (s.data.map (fun c => PyVal.str (String.mk [c])))
  | PyVal.dict fs => some (fs.map (fun p => PyVal.str p.1))
  | _ => none

/-- Does the string `pat` occur as a contiguous substring of `s`?  (Python
`pat in s`.) -/
def strContains (s pat : String) : Bool :=
  go s.data pat.data
where
  starts : List Char → List Char → Bool
    | _, [] => true
    | [], _ :: _ => false
    | c :: cs, p :: ps => c == p && starts cs ps
  go : List Char → List Char → Bool
    | [], pat => pat.isEmpty
    | l@(_ :: rest), pat => starts l pat || go rest pat

/-- Python `k in v` for a string key `k`: key membership for dicts, element
membership for lists, substring test for strings; `Except.error` models the
`TypeError` raised for other types. -/
def pyContains (k : String) (v : PyVal) : Except String Bool :=
  match v with
  | PyVal.dict fs => Except.ok (lookupL fs k).isSome
  | PyVal.list xs => Except.ok (xs.any (fun x => pyEqStr x k))
  | PyVal.str s => Except.ok (strContains s k)
  | _ => Except.error "argument of type is not iterable"

/-- Python `v[k]` for a string key `k`: dict lookup (KeyError when absent);
indexing a list or string with a string, or subscripting a scalar, raises a
`TypeError`. -/
def pyIndex (v : PyVal) (k : String) : Except String PyVal :=
  match v with
  | PyVal.dict fs =>
    match lookupL fs k with
    | some x => Except.ok x
    | none => Except.error ("\x27" ++ k ++ "\x27")
  | PyVal.list _ => Except.error "list indices must be integers or slices, not str"
  | PyVal.str _ => Except.error "string indices must be integers"
  | _ => Except.error "object is not subscriptable"

mutual

/-- Python `repr()` restricted to the shapes the handler renders (strings
get single quotes).  Used by `pyStr` for elements of containers. -/
def pyRepr : PyVal → String
  | PyVal.str s => "\x27" ++ s ++ "\x27"
  | PyVal.int n => toString n
  | PyVal.float q => toString q
  | PyVal.bool b => cond b "True" "False"
  | PyVal.pynone => "None"
  | PyVal.list xs => "[" ++ String.intercalate ", " (pyReprList xs) ++ "]"
  | PyVal.dict fs =>
    "\x7b" ++ String.intercalate ", " (pyReprFields fs) ++ "\x7d"

/-- Renders each element of a Python list by `repr`. -/
def pyReprList : List PyVal → List String
  | [] => []
  | x :: xs => pyRepr x :: pyReprList xs

/-- Renders each binding of a Python dict as `'key': repr value`. -/
def pyReprFields : List (String × PyVal) → List String
  | [] => []
  | (k, v) :: fs => ("\x27" ++ k ++ "\x27: " ++ pyRepr v) :: pyReprFields fs

end

/-- Python `str()` as used in the handler's f-strings: a string renders as
itself, containers render via `repr` of their elements. -/
def pyStr : PyVal → String
  | PyVal.str s => s
  | v => pyRepr v

/-! ## Byte-level helpers for the file validators -/

/-- Does the byte list start with the given needle? -/
def startsB : List Nat → List Nat → Bool
  | _, [] => true
  | [], _ :: _ => false
  | b :: bs, n :: ns => b == n && startsB bs ns

/-- Does the needle occur as a contiguous run inside the haystack?
(Python `needle in bytes`.) -/
def containsB (needle : List Nat) : List Nat → Bool
  | [] => needle.isEmpty
  | l@(_ :: rest) => startsB l needle || containsB needle rest

/-- Hexadecimal rendering of one byte, lowercase, two digits
(as in Python `bytes.hex()`). -/
def hexByte (b : Nat) : String :=
  let digit := fun (n : Nat) =>
    String.mk [Char.ofNat (if n < 10 then 48 + n else 87 + n)]
  digit (b / 16 % 16) ++ digit (b % 16)

/-- Python `bytes.hex()` over a byte list. -/
def hexBytes (bs : List Nat) : String :=
  String.join (bs.map hexByte)

/-- Byte codes of `"<!DOCTYPE"`. -/
def doctypeB : List Nat := [60, 33, 68, 79, 67, 84, 89, 80, 69]

/-- Byte codes of `"<html"`. -/
def htmlB : List Nat := [60, 104, 116, 109, 108]

/-- Byte codes of `"<?xml"`. -/
def xmlB : List Nat := [60, 63, 120, 109, 108]

/-- Byte codes of `"\"error\""`. -/
def errJsonB : List Nat := [34, 101, 114, 114, 111, 114, 34]

/-- Byte codes of `"\"message\""`. -/
def msgJsonB : List Nat := [34, 109, 101, 115, 115, 97, 103, 101, 34]

/-- The `imghdr.what` signature sniffing of the Python standard library,
applied to the first 32 bytes of the file: the tests are, in order, jpeg
(JFIF/Exif at offset 6), png, gif, tiff, rgb, pbm, pgm, ppm, rast, xbm,
bmp, webp, exr. -/
def imghdrWhat (bytes : List Nat) : Option String :=
  let h := bytes.take 32
  let slice := fun (off len : Nat) => (h.drop off).take len
  if slice 6 4 = [74, 70, 73, 70] || slice 6 4 = [69, 120, 105, 102] then
    some "jpeg"
  else if startsB h [137, 80, 78, 71, 13, 10, 26, 10] then some "png"
  else if slice 0 6 = [71, 73, 70, 56, 55, 97] ||
      slice 0 6 = [71, 73, 70, 56, 57, 97] then some "gif"
  else if slice 0 2 = [77, 77] || slice 0 2 = [73, 73] then some "tiff"
  else if startsB h [1, 218] then some "rgb"
  else if pnmTest h [49, 52] then some "pbm"
  else if pnmTest h [50, 53] then some "pgm"
  else if pnmTest h [51, 54] then some "ppm"
  else if startsB h [89, 166, 106, 149] then some "rast"
  else if startsB h [35, 100, 101, 102, 105, 110, 101, 32] then some "xbm"
  else if startsB h [66, 77] then some "bmp"
  else if startsB h [82, 73, 70, 70] && slice 8 4 = [87, 69, 66, 80] then
    some "webp"
  else if startsB h [118, 47, 49, 1] then some "exr"
  else none
where
  /-- The shared netpbm test: `h[0] == ord("P")`, `h[1]` among the two
  given digit codes, `h[2]` a whitespace byte. -/
  pnmTest (h : List Nat) (digits : List Nat) : Bool :=
    match h with
    | b0 :: b1 :: b2 :: _ =>
      b0 == 80 && digits.contains b1 && [32, 9, 10, 13].contains b2
    | _ => false

/-- A model of the local file system: each path maps to the byte contents
of the file there, `none` when the file does not exist. -/
def FileSys : Type := String → Option (List Nat)

/-- `validate_image_file` (handler.py lines 24-49): reject absent or
sub-100-byte files, sniff the image format via `imghdr`, and when no
format is recognised inspect the first 100 bytes for markup or JSON error
indicators before reporting a generic failure. -/
def validate_image_file (fs : FileSys) (path : String) : Bool × String :=
  match fs path with
  | none => (false, "File does not exist")
  | some bytes =>
    let file_size := bytes.length
    if file_size < 100 then
      (false, "File too small (" ++ toString file_size ++
        " bytes), likely an error response")
    else
      match imghdrWhat bytes with
      | some t =>
        (true, "Valid " ++ t ++ " image (" ++ toString file_size ++ " bytes)")
      | none =>
        let header := bytes.take 100
        if containsB doctypeB header || containsB htmlB header ||
            containsB xmlB header then
          (false, "File contains HTML/XML (likely an error page)")
        else if containsB errJsonB header || containsB msgJsonB header then
          (false, "File contains JSON error response")
        else
          (false, "File is not a valid image format")

/-- `validate_audio_file` (handler.py lines 52-93): reject absent or
sub-100-byte files, check the first 12 bytes for HTML then for the MP3,
WAV, OGG and M4A signatures, accept files over 10000 bytes as assumed
valid, and otherwise reject with the hex dump of the header. -/
def validate_audio_file (fs : FileSys) (path : String) : Bool × String :=
  match fs path with
  | none => (false, "File does not exist")
  | some bytes =>
    let file_size := bytes.length
    if file_size < 100 then
      (false, "File too small (" ++ toString file_size ++
        " bytes), likely an error response")
    else
      let header := bytes.take 12
      if containsB doctypeB header || containsB htmlB header then
        (false, "File contains HTML (likely an error page)")
      else if header.take 3 = [73, 68, 51] then
        (true, "Valid MP3 audio (" ++ toString file_size ++ " bytes)")
      else if header.take 2 = [255, 251] || header.take 2 = [255, 250] then
        (true, "Valid MP3 audio (" ++ toString file_size ++ " bytes)")
      else if header.take 4 = [82, 73, 70, 70] &&
          (header.drop 8).take 4 = [87, 65, 86, 69] then
        (true, "Valid WAV audio (" ++ toString file_size ++ " bytes)")
      else if header.take 4 = [79, 103, 103, 83] then
        (true, "Valid OGG audio (" ++ toString file_size ++ " bytes)")
      else if (header.drop 4).take 4 = [102, 116, 121, 112] then
        (true, "Valid M4A/AAC audio (" ++ toString file_size ++ " bytes)")
      else if file_size > 10000 then
        (true, "Assumed valid audio (" ++ toString file_size ++ " bytes)")
      else
        (false, "Unknown audio format (header: " ++
          hexBytes (header.take 8) ++ ")")

/-! ## Random seed -/

/-- A model of Python `random.randint(lo, hi)`: both bounds inclusive, the
entropy `x` selecting a value uniformly in the range. -/
def randint (lo hi : Int) (x : Nat) : Int :=
  lo + Int.ofNat (x % (hi - lo + 1).toNat)

/-- `generate_random_seed` (handler.py lines 170-172):
`random.randint(10**15, 10**16 - 1)`. -/
def generate_random_seed (x : Nat) : Int :=
  randint (10 ^ 15) (10 ^ 16 - 1) x

/-- The seed resolution of handler.py line 322:
`seed = generate_random_seed() if seed == -1 else seed`. -/
def resolveSeed (seed : Int) (x : Nat) : Int :=
  if seed = -1 then generate_random_seed x else seed

/-! ## The polling state machine (`poll_result`, handler.py lines 191-272) -/

/-- Tri-state outcome of the polling loop: `Completed` carries the value
found at `outputs[node]["gifs"][0]["filename"]`, `Failed` carries the error
message, and `TimedOut` carries the configured timeout (the code renders it
as `(False, f"Workflow timed out after {timeout} seconds")`). -/
inductive PollOutcome where
  | Completed (artifact : PyVal)
  | Failed (reason : String)
  | TimedOut (timeout : Nat)

/-- One iteration's view of the engine during polling: the history request
failed with a non-200 status (`httpFail`, lines 218-220), a transport
exception was raised and caught (`reqExn`, lines 266-268), some other
exception was raised (`exn`, lines 269-270), or a history mapping was
returned (`ok`). -/
inductive HistObs where
  | ok (history : PyVal)
  | httpFail
  | reqExn
  | exn (msg : String)

/-- `history[prompt_id]` guarded by `prompt_id in history` (line 224): the
history mapping has string keys, so a non-string prompt id is never
present. -/
def histLookup (history : PyVal) (pid : PyVal) : Option PyVal :=
  match history, pid with
  | PyVal.dict fs, PyVal.str s => lookupL fs s
  | _, _ => none

/-- Decodes one element of `status["messages"]` (lines 234-240): a list of
length at least two whose head is `"execution_error"` contributes
`f"{node_type}: {exception_message}"`; `.get` on a non-dict second element
raises (`Except.error`). -/
def msgDetail (msg : PyVal) : Except String (Option String) :=
  match msg with
  | PyVal.list (m0 :: m1 :: _) =>
    if pyEqStr m0 "execution_error" then
      match m1 with
      | PyVal.dict fs =>
        Except.ok (some
          (pyStr ((lookupL fs "node_type").getD (PyVal.str "Unknown")) ++
            ": " ++
            pyStr ((lookupL fs "exception_message").getD
              (PyVal.str "Unknown error"))))
      | _ => Except.error "object has no attribute get"
    else Except.ok none
  | _ => Except.ok none

/-- The `for msg in messages` accumulation of `error_details`
(lines 233-240); an exception mid-loop aborts the whole poll iteration. -/
def collectDetails : List PyVal → Except String (List String)
  | [] => Except.ok []
  | m :: ms =>
    match msgDetail m with
    | Except.error e => Except.error e
    | Except.ok none => collectDetails ms
    | Except.ok (some d) =>
      match collectDetails ms with
      | Except.error e => Except.error e
      | Except.ok rest => Except.ok (d :: rest)

/-- The error-status check of lines 228-244 over the fields of the history
entry: `some outcome` means the branch returned, `none` means execution
falls through to the outputs inspection. -/
def statusCheckObj (fs : List (String × PyVal)) : Option PollOutcome :=
  match lookupL fs "status" with
  | none => none
  | some status =>
    match status with
    | PyVal.dict sfs =>
      if pyEqStr ((lookupL sfs "status_str").getD PyVal.pynone) "error" then
        match pyIter? ((lookupL sfs "messages").getD (PyVal.list [])) with
        | none =>
          some (PollOutcome.Failed "Poll exception: object is not iterable")
        | some msgs =>
          match collectDetails msgs with
          | Except.error e => some (PollOutcome.Failed ("Poll exception: " ++ e))
          | Except.ok details =>
            if details.isEmpty then
              some (PollOutcome.Failed
                "Workflow execution failed with unknown error")
            else
              some (PollOutcome.Failed ("Workflow execution error: " ++
                String.intercalate "; " details))
      else none
    | _ =>
      some (PollOutcome.Failed "Poll exception: object has no attribute get")

/-- Classifies `node_output["gifs"]` for the gate
`"gifs" in node_output and len(node_output["gifs"]) > 0` (line 250):
`yes` passes the gate carrying the value, `no` falls through, `exn` models
a raised `TypeError`. -/
inductive GifsGate where
  | yes (gv : PyVal)
  | no
  | exn (m : String)

/-- Evaluates the `gifs` gate on `node_output` (line 250); non-dict
`node_output` values follow Python `in` semantics (membership for lists,
substring for strings) and then raise on the string-keyed indexing. -/
def gifsGate (node_output : PyVal) : GifsGate :=
  match node_output with
  | PyVal.dict fs =>
    match lookupL fs "gifs" with
    | none => GifsGate.no
    | some gv =>
      match pyLen? gv with
      | none => GifsGate.exn "object has no len"
      | some 0 => GifsGate.no
      | some (_ + 1) => GifsGate.yes gv
  | PyVal.list xs =>
    if xs.any (fun x => pyEqStr x "gifs") then
      GifsGate.exn "list indices must be integers or slices, not str"
    else GifsGate.no
  | PyVal.str s =>
    if strContains s "gifs" then
      GifsGate.exn "string indices must be integers"
    else GifsGate.no
  | _ => GifsGate.exn "argument of type is not iterable"

/-- `node_output["gifs"][0]["filename"]` (line 251) on a value that passed
the length gate: succeeds only for a list whose first element is a dict
with a `"filename"` key; every other shape raises. -/
def extractFilename (gv : PyVal) : PollOutcome :=
  match gv with
  | PyVal.list (g :: _) =>
    match g with
    | PyVal.dict gfs =>
      match lookupL gfs "filename" with
      | some v => PollOutcome.Completed v
      | none => PollOutcome.Failed "Poll exception: \x27filename\x27"
    | PyVal.str _ =>
      PollOutcome.Failed "Poll exception: string indices must be integers"
    | PyVal.list _ =>
      PollOutcome.Failed
        "Poll exception: list indices must be integers or slices, not str"
    | _ => PollOutcome.Failed "Poll exception: object is not subscriptable"
  | PyVal.str _ =>
    PollOutcome.Failed "Poll exception: string indices must be integers"
  | PyVal.dict _ => PollOutcome.Failed "Poll exception: 0"
  | _ => PollOutcome.Failed "Poll exception: object is not subscriptable"

/-- Python `str(list_of_keys)` for the diagnostic of line 262: the keys of
the outputs dict rendered with single quotes. -/
def availableNodesStr (keys : List String) : String :=
  "[" ++ String.intercalate ", "
    (keys.map (fun k => "\x27" ++ k ++ "\x27")) ++ "]"

/-- The outputs inspection of lines 246-262 over the fields of the history
entry: read `outputs` (default `{}`), index the target node (default `{}`),
and either extract the artifact, report "no outputs", or name the nodes
that did produce output. -/
def outputCheckObj (fs : List (String × PyVal)) (node_id : Nat) : PollOutcome :=
  match (lookupL fs "outputs").getD (PyVal.dict []) with
  | PyVal.dict outs =>
    let node_output := (lookupL outs (toString node_id)).getD (PyVal.dict [])
    match gifsGate node_output with
    | GifsGate.exn m => PollOutcome.Failed ("Poll exception: " ++ m)
    | GifsGate.yes gv => extractFilename gv
    | GifsGate.no =>
      if outs.isEmpty then
        PollOutcome.Failed "Workflow completed but produced no outputs"
      else
        PollOutcome.Failed ("Node " ++ toString node_id ++
          " has no output. Available outputs from nodes: " ++
          availableNodesStr (outs.map Prod.fst))
  | _ => PollOutcome.Failed "Poll exception: object has no attribute get"

/-- Processing of a history entry once `prompt_id in history`
(lines 225-262): the error-status check first, then the outputs
inspection; every branch returns, so a present entry is always terminal.
A non-dict entry raises on `"status" in ...` or on `.get`. -/
def pollEntry (entry : PyVal) (node_id : Nat) : PollOutcome :=
  match entry with
  | PyVal.dict fs =>
    match statusCheckObj fs with
    | some outcome => outcome
    | none => outputCheckObj fs node_id
  | PyVal.str s =>
    if strContains s "status" then
      PollOutcome.Failed "Poll exception: string indices must be integers"
    else PollOutcome.Failed "Poll exception: object has no attribute get"
  | PyVal.list xs =>
    if xs.any (fun x => pyEqStr x "status") then
      PollOutcome.Failed
        "Poll exception: list indices must be integers or slices, not str"
    else PollOutcome.Failed "Poll exception: object has no attribute get"
  | _ => PollOutcome.Failed "Poll exception: argument of type is not iterable"

/-- The polling loop of lines 202-272, driven by the per-iteration
observations `obs`.  Time is the sum of the sleeps: 2 seconds after a
failed history request or an absent correlation id, 5 seconds after a
caught transport exception; the loop runs while `elapsed < timeout`.  The
`fuel` argument only bounds the recursion: every iteration consumes at
least 2 seconds, so `fuel = timeout` iterations always reach the time
bound first (see `poll_result`). -/
def pollLoop (obs : Nat → HistObs) (prompt_id : PyVal) (node_id : Nat)
    (timeout : Nat) : Nat → Nat → Nat → PollOutcome
  | 0, _, _ => PollOutcome.TimedOut timeout
  | fuel + 1, i, elapsed =>
    if elapsed < timeout then
      match obs i with
      | HistObs.httpFail => pollLoop obs prompt_id node_id timeout fuel (i + 1) (elapsed + 2)
      | HistObs.reqExn => pollLoop obs prompt_id node_id timeout fuel (i + 1) (elapsed + 5)
      | HistObs.exn m => PollOutcome.Failed ("Poll exception: " ++ m)
      | HistObs.ok history =>
        match histLookup history prompt_id with
        | some entry => pollEntry entry node_id
        | none => pollLoop obs prompt_id node_id timeout fuel (i + 1) (elapsed + 2)
    else PollOutcome.TimedOut timeout

/-- `poll_result(url, prompt_id, node_id, timeout=600)`: run the polling
loop from iteration 0 with no elapsed time. -/
def poll_result (obs : Nat → HistObs) (prompt_id : PyVal) (node_id : Nat)
    (timeout : Nat := 600) : PollOutcome :=
  pollLoop obs prompt_id node_id timeout timeout 0 0

/-! ## The workflow template binder (handler.py lines 355-383) -/

/-- One assignment `workflow[node]["inputs"][inputName] = v`: the two
subscript reads raise `KeyError`/`TypeError` when the node or its
`"inputs"` dict is absent or of the wrong shape, and the final store
replaces (or, when the input name is absent from the template, adds) the
binding in the inner dict.  The template is freshly parsed JSON, so no two
slots alias the same dict object. -/
def setInput (w : PyVal) (node inputName : String) (v : PyVal) :
    Except String PyVal :=
  match w with
  | PyVal.dict nodes =>
    match lookupL nodes node with
    | none => Except.error ("\x27" ++ node ++ "\x27")
    | some nodeDef =>
      match nodeDef with
      | PyVal.dict fields =>
        match lookupL fields "inputs" with
        | none => Except.error "\x27inputs\x27"
        | some inputsV =>
          match inputsV with
          | PyVal.dict ins =>
            Except.ok (PyVal.dict (setKey nodes node
              (PyVal.dict (setKey fields "inputs"
                (PyVal.dict (setKey ins inputName v))))))
          | _ => Except.error "object does not support item assignment"
      | _ => Except.error "object is not subscriptable"
  | _ => Except.error "object is not subscriptable"

/-- Sequences the slot assignments left to right, propagating the first
raised exception. -/
def bindSlots (w : PyVal) : List (String × String × PyVal) → Except String PyVal
  | [] => Except.ok w
  | (n, i, v) :: rest =>
    match setInput w n i v with
    | Except.error e => Except.error e
    | Except.ok w2 => bindSlots w2 rest

/-- The extracted job parameters of handler.py lines 300-319 (the value of
the `"aspect_ratio"` key is held in the `aspect_val` field). -/
structure Params where
  image_url : PyVal
  audio_url : PyVal
  video_upload_url : PyVal
  crop_start : PyVal
  crop_end : PyVal
  positive_prompt : PyVal
  negative_prompt : PyVal
  aspect_val : PyVal
  scale_side : PyVal
  scale_len : Int
  fps : Rat
  num_frames : Int
  steps : Int
  seed : Int
  scheduler : PyVal
  audio_scale : Rat
  cfg_audio_scale : Rat
  multi_audio : PyVal
  normalize : Bool

/-- The designated `(nodeId, inputName, value)` slots, in the assignment
order of lines 359-382. -/
def slotAssignments (p : Params) (image_name audio_name : String)
    (seedR : Int) : List (String × String × PyVal) :=
  [("218", "image", PyVal.str image_name),
   ("219", "audio", PyVal.str audio_name),
   ("223", "start_time", p.crop_start),
   ("223", "end_time", p.crop_end),
   ("135", "positive_prompt", p.positive_prompt),
   ("135", "negative_prompt", p.negative_prompt),
   ("233", "aspect_ratio", p.aspect_val),
   ("233", "scale_to_side", p.scale_side),
   ("233", "scale_to_length", PyVal.int p.scale_len),
   ("224", "audio_scale", PyVal.float p.audio_scale),
   ("224", "audio_cfg_scale", PyVal.float p.cfg_audio_scale),
   ("224", "multi_audio_type", p.multi_audio),
   ("224", "normalize_loudness", PyVal.bool p.normalize),
   ("198", "seed", PyVal.int seedR),
   ("198", "steps", PyVal.int p.steps),
   ("198", "scheduler", p.scheduler),
   ("226", "value", PyVal.float p.fps),
   ("228", "value", PyVal.int p.num_frames)]

/-- The workflow binding step (lines 358-382): apply every designated slot
assignment to the loaded template. -/
def bindWorkflow (w : PyVal) (p : Params) (image_name audio_name : String)
    (seedR : Int) : Except String PyVal :=
  bindSlots w (slotAssignments p image_name audio_name seedR)

/-! ## Python numeric conversions (`int(...)`, `float(...)`, `bool(...)`) -/

/-- Value of a list of decimal digit characters. -/
def digitsVal (ds : List Char) : Nat :=
  ds.foldl (fun a c => a * 10 + (c.toNat - 48)) 0

/-- Nonempty and all decimal digits. -/
def allDigits (ds : List Char) : Bool :=
  !ds.isEmpty && ds.all Char.isDigit

/-- Strips leading and trailing whitespace characters from a character
list (the ASCII whitespace Python strips; exotic unicode spaces are
outside the modelled domain). -/
def trimChars (cs : List Char) : List Char :=
  ((cs.dropWhile Char.isWhitespace).reverse.dropWhile Char.isWhitespace).reverse

/-- Parses the strings Python `int()` accepts: surrounding whitespace, an
optional sign, then decimal digits (PEP 515 underscores are outside the
modelled domain). -/
def parseIntLit? (s : String) : Option Int :=
  match trimChars s.data with
  | [] => none
  | c :: rest =>
    if c == '-' then
      if allDigits rest then some (-(digitsVal rest : Int)) else none
    else if c == '+' then
      if allDigits rest then some ((digitsVal rest : Int)) else none
    else if allDigits (c :: rest) then some ((digitsVal (c :: rest) : Int))
    else none

/-- Splits at the first occurrence of any of the given characters. -/
def splitFirst (seps : List Char) (cs : List Char) :
    List Char × Option (List Char) :=
  match cs.span (fun c => !seps.contains c) with
  | (before, []) => (before, none)
  | (before, _ :: after) => (before, some after)

/-- Parses an unsigned decimal mantissa: digits, optionally with a decimal
point, at least one digit overall. -/
def parseMantissa? (cs : List Char) : Option Rat :=
  match splitFirst ['.'] cs with
  | (ip, none) => if allDigits ip then some ((digitsVal ip : Rat)) else none
  | (ip, some fp) =>
    if ip.all Char.isDigit && fp.all Char.isDigit &&
        !(ip.isEmpty && fp.isEmpty) then
      some ((digitsVal ip : Rat) + (digitsVal fp : Rat) / (10 : Rat) ^ fp.length)
    else none

/-- Parses a signed decimal exponent. -/
def parseExpLit? (cs : List Char) : Option Int :=
  match cs with
  | [] => none
  | c :: rest =>
    if c == '-' then
      if allDigits rest then some (-(digitsVal rest : Int)) else none
    else if c == '+' then
      if allDigits rest then some ((digitsVal rest : Int)) else none
    else if allDigits (c :: rest) then some ((digitsVal (c :: rest) : Int))
    else none

/-- Ten to an integer power, as a rational. -/
def ratPow10 (e : Int) : Rat :=
  if 0 ≤ e then ((10 : Rat) ^ e.toNat) else 1 / (10 : Rat) ^ (-e).toNat

/-- Parses the finite decimal literals Python `float()` accepts:
surrounding whitespace, optional sign, mantissa with optional fraction,
optional exponent ("inf"/"nan" literals are outside the modelled
domain). -/
def parseFloatLit? (s : String) : Option Rat :=
  match trimChars s.data with
  | [] => none
  | cs =>
    let signed := match cs with
      | c :: rest =>
        if c == '-' then (true, rest)
        else if c == '+' then (false, rest)
        else (false, cs)
      | [] => (false, cs)
    match splitFirst ['e', 'E'] signed.2 with
    | (mant, none) =>
      (parseMantissa? mant).map (fun q => if signed.1 then -q else q)
    | (mant, some ex) =>
      match parseMantissa? mant, parseExpLit? ex with
      | some q, some e =>
        some ((if signed.1 then -q else q) * ratPow10 e)
      | _, _ => none

/-- Truncation toward zero, as Python `int()` applied to a float. -/
def ratTrunc (q : Rat) : Int :=
  if q < 0 then -(Int.ofNat (q.num.natAbs / q.den))
  else Int.ofNat (q.num.natAbs / q.den)

/-- Python type names, for `TypeError` messages. -/
def pyTypeName : PyVal → String
  | PyVal.str _ => "str"
  | PyVal.int _ => "int"
  | PyVal.float _ => "float"
  | PyVal.bool _ => "bool"
  | PyVal.pynone => "NoneType"
  | PyVal.list _ => "list"
  | PyVal.dict _ => "dict"

/-- Python `int(v)`: identity on ints, 0/1 on bools, truncation on floats,
decimal parsing on strings (`ValueError` on a non-numeric string), and
`TypeError` on other types. -/
def convInt (v : PyVal) : Except String Int :=
  match v with
  | PyVal.int n => Except.ok n
  | PyVal.bool b => Except.ok (cond b 1 0)
  | PyVal.float q => Except.ok (ratTrunc q)
  | PyVal.str s =>
    match parseIntLit? s with
    | some n => Except.ok n
    | none =>
      Except.error ("invalid literal for int() with base 10: \x27" ++ s ++ "\x27")
  | _ =>
    Except.error
      ("int() argument must be a string, a bytes-like object or a real number, not \x27" ++
        pyTypeName v ++ "\x27")

/-- Python `float(v)`: numbers and bools convert, strings are parsed as
decimal literals (`ValueError` on failure), other types raise
`TypeError`. -/
def convFloat (v : PyVal) : Except String Rat :=
  match v with
  | PyVal.float q => Except.ok q
  | PyVal.int n => Except.ok ((n : Rat))
  | PyVal.bool b => Except.ok (cond b 1 0)
  | PyVal.str s =>
    match parseFloatLit? s with
    | some q => Except.ok q
    | none =>
      Except.error ("could not convert string to float: \x27" ++ s ++ "\x27")
  | _ =>
    Except.error ("float() argument must be a string or a real number, not \x27" ++
      pyTypeName v ++ "\x27")

/-- Python truthiness, for `bool(v)` (never raises). -/
def pyTruthy : PyVal → Bool
  | PyVal.str s => !s.isEmpty
  | PyVal.int n => n != 0
  | PyVal.float q => q != 0
  | PyVal.bool b => b
  | PyVal.pynone => false
  | PyVal.list xs => !xs.isEmpty
  | PyVal.dict fs => !fs.isEmpty

/-! ## The job orchestrator (`handler`, handler.py lines 275-447) -/

/-- The 19 required job-payload keys, in the order of lines 284-293. -/
def required_params : List String :=
  ["image_url", "audio_url", "video_upload_url",
   "audio_crop_start_time", "audio_crop_end_time",
   "positive_prompt", "negative_prompt",
   "aspect_ratio", "scale_to_length", "scale_to_side",
   "fps", "num_frames",
   "embeds_audio_scale", "embeds_cfg_audio_scale",
   "embeds_multi_audio_type", "embeds_normalize_loudness",
   "steps", "seed", "scheduler"]

/-- The missing-parameter comprehension of line 295:
`[p for p in required_params if p not in job_input]`; a `TypeError` from
`in` aborts the handler. -/
def missingOf (ps : List String) (job_input : PyVal) :
    Except String (List String) :=
  match ps with
  | [] => Except.ok []
  | p :: rest =>
    match pyContains p job_input with
    | Except.error e => Except.error e
    | Except.ok b =>
      match missingOf rest job_input with
      | Except.error e => Except.error e
      | Except.ok ms => Except.ok (if b then ms else p :: ms)

/-- The parameter extraction and normalization of lines 300-319, in source
order; the first raised `KeyError`/`ValueError`/`TypeError` aborts. -/
def extractParams (job_input : PyVal) : Except String Params := do
  let image_url ← pyIndex job_input "image_url"
  let audio_url ← pyIndex job_input "audio_url"
  let video_upload_url ← pyIndex job_input "video_upload_url"
  let crop_start ← pyIndex job_input "audio_crop_start_time"
  let crop_end ← pyIndex job_input "audio_crop_end_time"
  let positive_prompt ← pyIndex job_input "positive_prompt"
  let negative_prompt ← pyIndex job_input "negative_prompt"
  let aspect_val ← pyIndex job_input "aspect_ratio"
  let scale_side ← pyIndex job_input "scale_to_side"
  let scale_len_v ← pyIndex job_input "scale_to_length"
  let scale_len ← convInt scale_len_v
  let fps_v ← pyIndex job_input "fps"
  let fps ← convFloat fps_v
  let num_frames_v ← pyIndex job_input "num_frames"
  let num_frames ← convInt num_frames_v
  let steps_v ← pyIndex job_input "steps"
  let steps ← convInt steps_v
  let seed_v ← pyIndex job_input "seed"
  let seed ← convInt seed_v
  let scheduler ← pyIndex job_input "scheduler"
  let audio_scale_v ← pyIndex job_input "embeds_audio_scale"
  let audio_scale ← convFloat audio_scale_v
  let cfg_audio_scale_v ← pyIndex job_input "embeds_cfg_audio_scale"
  let cfg_audio_scale ← convFloat cfg_audio_scale_v
  let multi_audio ← pyIndex job_input "embeds_multi_audio_type"
  let normalize_v ← pyIndex job_input "embeds_normalize_loudness"
  Except.ok
    { image_url := image_url, audio_url := audio_url,
      video_upload_url := video_upload_url,
      crop_start := crop_start, crop_end := crop_end,
      positive_prompt := positive_prompt, negative_prompt := negative_prompt,
      aspect_val := aspect_val, scale_side := scale_side,
      scale_len := scale_len, fps := fps, num_frames := num_frames,
      steps := steps, seed := seed, scheduler := scheduler,
      audio_scale := audio_scale, cfg_audio_scale := cfg_audio_scale,
      multi_audio := multi_audio, normalize := pyTruthy normalize_v }

/-- The observable operations the handler can perform on its
collaborators, recorded in execution order. -/
inductive Event where
  | download (save_name : String)
  | validate (path : String)
  | checkServer
  | submit
  | poll
  | upload
deriving DecidableEq

/-- The external world of one handler run: outcomes of downloads, the
local file system, the workflow template file, engine reachability, the
submission response (HTTP code and parsed JSON body, `none` for an
unparsable body), the polling observations, upload outcomes, and the
entropy stream feeding `random.randint` (one value per draw, in draw
order). -/
structure Env where
  download : PyVal → String → Bool × String
  fs : FileSys
  workflowFile : Option PyVal
  serverUp : Bool
  submit : PyVal → Nat × Option PyVal
  histObs : Nat → HistObs
  upload : String → PyVal → Bool × String
  entropy : Nat → Nat

/-- The success payload of line 436-440. -/
structure Payload where
  video_size : Nat
  num_frames : Int
  duration : Rat
deriving DecidableEq

/-- The handler's sole return value: an HTTP-style status, a message, and
on success a payload. -/
structure JobResult where
  status : Nat
  message : String
  payload : Option Payload
deriving DecidableEq

/-- Submission, polling, artifact check and upload (lines 386-441). -/
def handlerEngine (p : Params) (workflow : PyVal) (env : Env)
    (ev : List Event) : JobResult × List Event :=
  let ev5 := ev ++ [Event.checkServer]
  if !env.serverUp then
    (⟨500, "ComfyUI server not reachable", none⟩, ev5)
  else
    let sub := env.submit workflow
    let ev6 := ev5 ++ [Event.submit]
    if sub.1 ≠ 200 then
      (⟨500, "Failed to submit workflow: HTTP " ++ toString sub.1, none⟩, ev6)
    else
      match sub.2 with
      | none =>
        (⟨500, "Handler exception: Expecting value: line 1 column 1 (char 0)",
          none⟩, ev6)
      | some body =>
        match pyContains "prompt_id" body with
        | Except.error e => (⟨500, "Handler exception: " ++ e, none⟩, ev6)
        | Except.ok false =>
          match body with
          | PyVal.dict bfs =>
            let error_info := (lookupL bfs "error").getD
              ((lookupL bfs "node_errors").getD (PyVal.str "Unknown error"))
            (⟨500, "Workflow rejected: " ++ pyStr error_info, none⟩, ev6)
          | _ =>
            (⟨500, "Handler exception: object has no attribute get", none⟩, ev6)
        | Except.ok true =>
          match pyIndex body "prompt_id" with
          | Except.error e => (⟨500, "Handler exception: " ++ e, none⟩, ev6)
          | Except.ok prompt_id =>
            let ev7 := ev6 ++ [Event.poll]
            match poll_result env.histObs prompt_id 221 with
            | PollOutcome.Failed m =>
              (⟨500, "Workflow failed: " ++ m, none⟩, ev7)
            | PollOutcome.TimedOut t =>
              (⟨500, "Workflow failed: Workflow timed out after " ++
                toString t ++ " seconds", none⟩, ev7)
            | PollOutcome.Completed v =>
              let video_path := "output/" ++ pyStr v
              match env.fs video_path with
              | none =>
                (⟨500, "Output video not found at " ++ video_path, none⟩, ev7)
              | some fd =>
                let video_size := fd.length
                let up := env.upload video_path p.video_upload_url
                let ev8 := ev7 ++ [Event.upload]
                if !up.1 then
                  (⟨500, "Video upload failed: " ++ up.2, none⟩, ev8)
                else
                  (⟨200, "Video created successfully",
                    some ⟨video_size, p.num_frames,
                      (p.num_frames : Rat) / p.fps⟩⟩, ev8)

/-- Seed resolution, staging of the two assets, and template binding
(lines 321-383).  Line 324 prints `num_frames/fps`, so a zero frame rate
raises `ZeroDivisionError` before any download. -/
def handlerStage2 (p : Params) (env : Env) : JobResult × List Event :=
  let seedR := resolveSeed p.seed (env.entropy 0)
  let c1 : Nat := if p.seed = -1 then 1 else 0
  if p.fps = 0 then
    (⟨500, "Handler exception: division by zero", none⟩, [])
  else
    let image_name :=
      "input_image_" ++ toString (generate_random_seed (env.entropy c1)) ++ ".png"
    let dl1 := env.download p.image_url image_name
    let ev1 := [Event.download image_name]
    if !dl1.1 then
      (⟨500, "Image download failed: " ++ dl1.2, none⟩, ev1)
    else
      let image_path := dl1.2
      let val1 := validate_image_file env.fs image_path
      let ev2 := ev1 ++ [Event.validate image_path]
      if !val1.1 then
        (⟨500, "Image validation failed: " ++ val1.2, none⟩, ev2)
      else
        let audio_name :=
          "input_audio_" ++
            toString (generate_random_seed (env.entropy (c1 + 1))) ++ ".mp3"
        let dl2 := env.download p.audio_url audio_name
        let ev3 := ev2 ++ [Event.download audio_name]
        if !dl2.1 then
          (⟨500, "Audio download failed: " ++ dl2.2, none⟩, ev3)
        else
          let audio_path := dl2.2
          let val2 := validate_audio_file env.fs audio_path
          let ev4 := ev3 ++ [Event.validate audio_path]
          if !val2.1 then
            (⟨500, "Audio validation failed: " ++ val2.2, none⟩, ev4)
          else
            match env.workflowFile with
            | none =>
              (⟨500, "Workflow file not found: multitalk_api.json", none⟩, ev4)
            | some wf =>
              match bindWorkflow wf p image_name audio_name seedR with
              | Except.error e =>
                (⟨500, "Handler exception: " ++ e, none⟩, ev4)
              | Except.ok workflow => handlerEngine p workflow env ev4

/-- The handler entry point (lines 275-447): read `job["input"]` (default
`{}`), report the full list of missing required keys with status 400,
extract and normalize the parameters, and run the staging/engine pipeline;
any uncaught exception becomes a status-500 `Handler exception` result.
The second component records which external operations ran. -/
def handler (job : PyVal) (env : Env) : JobResult × List Event :=
  match job with
  | PyVal.dict jfs =>
    let job_input := (lookupL jfs "input").getD (PyVal.dict [])
    match missingOf required_params job_input with
    | Except.error e => (⟨500, "Handler exception: " ++ e, none⟩, [])
    | Except.ok missing =>
      if missing.isEmpty then
        match extractParams job_input with
        | Except.error e => (⟨500, "Handler exception: " ++ e, none⟩, [])
        | Except.ok p => handlerStage2 p env
      else
        (⟨400, "Missing required parameters: " ++
          String.intercalate ", " missing, none⟩, [])
  | _ => (⟨500, "Handler exception: object has no attribute get", none⟩, [])

/-! ## Shared lemmas and a trivial environment for concrete instantiations -/

/-- An inert environment: every external operation fails or is empty. -/
def trivialEnv : Env :=
  { download := fun _ _ => (false, ""),
    fs := fun _ => none,
    workflowFile := none,
    serverUp := false,
    submit := fun _ => (0, none),
    histObs := fun _ => HistObs.httpFail,
    upload := fun _ _ => (false, ""),
    entropy := fun _ => 0 }

/-- On a dict payload the missing-parameter comprehension never raises and
returns exactly the required keys that fail the lookup. -/
theorem missingOf_dict (ps : List String) (ji : List (String × PyVal)) :
    missingOf ps (PyVal.dict ji) =
      Except.ok (ps.filter (fun p => !(lookupL ji p).isSome)) := by
  induction ps with
  | nil => rfl
  | cons p rest ih =>
    simp only [missingOf, pyContains, ih, List.filter_cons]
    cases h : (lookupL ji p).isSome <;> simp [h]

/-- C6 helper: the modelled `random.randint(10**15, 10**16 - 1)` always
lands in the inclusive range. -/
theorem generate_random_seed_range (x : Nat) :
    10 ^ 15 ≤ generate_random_seed x ∧ generate_random_seed x ≤ 10 ^ 16 - 1 := by
  unfold generate_random_seed randint
  have hN : ((10 : Int) ^ 16 - 1 - 10 ^ 15 + 1) = (9000000000000000 : Int) := by
    norm_num
  rw [hN]
  have hlt : x % (9000000000000000 : Int).toNat < (9000000000000000 : Int).toNat :=
    Nat.mod_lt _ (by norm_num)
  norm_num at hlt ⊢
  omega

/-- C6: with the sentinel seed −1 the resolved seed is a freshly drawn
value in [10^15, 10^16 − 1]; any other seed passes through unchanged. -/
theorem seed_resolution (seed : Int) (x : Nat) :
    (seed = -1 →
      10 ^ 15 ≤ resolveSeed seed x ∧ resolveSeed seed x ≤ 10 ^ 16 - 1) ∧
    (seed ≠ -1 → resolveSeed seed x = seed) := by
  constructor
  · rintro rfl
    rw [resolveSeed, if_pos rfl]
    exact generate_random_seed_range x
  · intro h
    rw [resolveSeed, if_neg h]

/-- C6 witness: at seed −1 with entropy 0 the resolved seed is in range;
at seed 5 it is 5. -/
theorem seed_resolution_witness :
    (10 ^ 15 ≤ resolveSeed (-1) 0 ∧ resolveSeed (-1) 0 ≤ 10 ^ 16 - 1) ∧
      resolveSeed 5 0 = 5 :=
  ⟨(seed_resolution (-1) 0).1 rfl, (seed_resolution 5 0).2 (by decide)⟩

/-- C1: a dict payload missing at least one required key yields status 400,
the message rendering the complete list of missing keys (every missing
required key is in that list), and no external operation runs. -/
theorem missing_params_all_reported
    (job : PyVal) (jfs ji : List (String × PyVal)) (env : Env)
    (hjob : job = PyVal.dict jfs)
    (hinput : (lookupL jfs "input").getD (PyVal.dict []) = PyVal.dict ji)
    (p0 : String) (hp0 : p0 ∈ required_params)
    (hmiss : lookupL ji p0 = none) :
    (handler job env).1.status = 400 ∧
    (handler job env).1.message = "Missing required parameters: " ++
      String.intercalate ", "
        (required_params.filter (fun p => !(lookupL ji p).isSome)) ∧
    (∀ q, q ∈ required_params → lookupL ji q = none →
      q ∈ required_params.filter (fun p => !(lookupL ji p).isSome)) ∧
    (handler job env).2 = [] := by
  subst hjob
  have hmem : p0 ∈ required_params.filter (fun p => !(lookupL ji p).isSome) :=
    List.mem_filter.mpr ⟨hp0, by rw [hmiss]; rfl⟩
  have hne : required_params.filter (fun p => !(lookupL ji p).isSome) ≠ [] :=
    List.ne_nil_of_mem hmem
  have hempty :
      (required_params.filter (fun p => !(lookupL ji p).isSome)).isEmpty = false := by
    cases h : required_params.filter (fun p => !(lookupL ji p).isSome) with
    | nil => exact absurd h hne
    | cons a l => rfl
  have hempty2 :
      (required_params.filter (fun p => (lookupL ji p).isNone)).isEmpty = false := by
    simpa using hempty
  refine ⟨?_, ?_, ?_, ?_⟩
  · simp [handler, hinput, missingOf_dict, hempty2]
  · simp [handler, hinput, missingOf_dict, hempty2]
  · intro q hq hq0
    exact List.mem_filter.mpr ⟨hq, by rw [hq0]; rfl⟩
  · simp [handler, hinput, missingOf_dict, hempty2]

/-- C1 witness: the empty payload is missing every key; the handler
reports all 19 names with status 400 and performs no operation. -/
theorem missing_params_all_reported_witness :
    (handler (PyVal.dict []) trivialEnv).1.status = 400 ∧
    (handler (PyVal.dict []) trivialEnv).1.message = "Missing required parameters: " ++
      String.intercalate ", "
        (required_params.filter (fun p => !(lookupL [] p).isSome)) ∧
    (∀ q, q ∈ required_params → lookupL [] q = none →
      q ∈ required_params.filter (fun p => !(lookupL [] p).isSome)) ∧
    (handler (PyVal.dict []) trivialEnv).2 = [] :=
  missing_params_all_reported (PyVal.dict []) [] [] trivialEnv rfl rfl
    "image_url" (by simp [required_params]) rfl

/-- Byte codes of `"<!DOCTYPE html>"`. -/
def doctypeHtmlB : List Nat :=
  [60, 33, 68, 79, 67, 84, 89, 80, 69, 32, 104, 116, 109, 108, 62]

/-- C8: a file whose first 12 bytes match `RIFF....WAVE` and whose size
meets the 100-byte minimum is classified valid WAV audio; a file beginning
with `<!DOCTYPE html>` is classified invalid by both validators (at any
size), with the error-page diagnostic once it passes the size gate. -/
theorem validator_signatures :
    (∀ (fs : FileSys) (path : String) (b4 b5 b6 b7 : Nat) (rest : List Nat),
      fs path = some ([82, 73, 70, 70, b4, b5, b6, b7, 87, 65, 86, 69] ++ rest) →
      100 ≤ 12 + rest.length →
      validate_audio_file fs path =
        (true, "Valid WAV audio (" ++ toString (12 + rest.length) ++ " bytes)")) ∧
    (∀ (fs : FileSys) (path : String) (rest : List Nat),
      fs path = some (doctypeHtmlB ++ rest) →
      (validate_image_file fs path).1 = false ∧
      (validate_audio_file fs path).1 = false ∧
      (100 ≤ 15 + rest.length →
        validate_image_file fs path =
          (false, "File contains HTML/XML (likely an error page)") ∧
        validate_audio_file fs path =
          (false, "File contains HTML (likely an error page)"))) := by
  constructor
  · intro fs path b4 b5 b6 b7 rest hfs hlen
    have htake : ([82, 73, 70, 70, b4, b5, b6, b7, 87, 65, 86, 69] ++ rest).take 12 =
        [82, 73, 70, 70, b4, b5, b6, b7, 87, 65, 86, 69] := by
      rw [List.take_append_eq_append_take]; rfl
    have hd : containsB doctypeB
        [82, 73, 70, 70, b4, b5, b6, b7, 87, 65, 86, 69] = false := by
      simp [containsB, startsB, doctypeB]
    have hh : containsB htmlB
        [82, 73, 70, 70, b4, b5, b6, b7, 87, 65, 86, 69] = false := by
      simp [containsB, startsB, htmlB]
    simp [validate_audio_file, hfs, htake, hd, hh]
    rw [if_neg (by omega :
      ¬ (rest.length + 1 + 1 + 1 + 1 + 1 + 1 + 1 + 1 + 1 + 1 + 1 + 1 < 100))]
    have he : rest.length + 1 + 1 + 1 + 1 + 1 + 1 + 1 + 1 + 1 + 1 + 1 + 1 =
        12 + rest.length := by omega
    rw [he]
  · intro fs path rest hfs
    have htk32 : (doctypeHtmlB ++ rest).take 32 = doctypeHtmlB ++ rest.take 17 := by
      rw [List.take_append_eq_append_take]; rfl
    have htk100 : (doctypeHtmlB ++ rest).take 100 = doctypeHtmlB ++ rest.take 85 := by
      rw [List.take_append_eq_append_take]; rfl
    have htk12 : (doctypeHtmlB ++ rest).take 12 =
        [60, 33, 68, 79, 67, 84, 89, 80, 69, 32, 104, 116] := by
      rw [List.take_append_eq_append_take]; rfl
    have himg : imghdrWhat (doctypeHtmlB ++ rest) = none := by
      simp [imghdrWhat, imghdrWhat.pnmTest, htk32, doctypeHtmlB, startsB,
        List.take_append_eq_append_take, List.drop_append_eq_append_drop]
    have hcont100 : containsB doctypeB (doctypeHtmlB ++ rest.take 85) = true := by
      simp [containsB, startsB, doctypeB, doctypeHtmlB]
    have hcont12 : containsB doctypeB
        [60, 33, 68, 79, 67, 84, 89, 80, 69, 32, 104, 116] = true := by
      simp [containsB, startsB, doctypeB]
    have hdl : doctypeHtmlB.length = 15 := rfl
    refine ⟨?_, ?_, ?_⟩
    · by_cases hl : doctypeHtmlB.length + rest.length < 100
      · simp [validate_image_file, hfs, hl]
      · simp [validate_image_file, hfs, hl, himg, htk100, hcont100]
    · by_cases hl : doctypeHtmlB.length + rest.length < 100
      · simp [validate_audio_file, hfs, hl]
      · simp [validate_audio_file, hfs, hl, htk12, hcont12]
    · intro hsz
      have hl : ¬ (doctypeHtmlB.length + rest.length < 100) := by
        rw [hdl]; omega
      constructor
      · simp [validate_image_file, hfs, hl, himg, htk100, hcont100]
      · simp [validate_audio_file, hfs, hl, htk12, hcont12]

/-- C8 witness: a 100-byte `RIFF....WAVE` file validates as WAV audio, and
a file beginning with `<!DOCTYPE html>` fails both validators with the
error-page messages. -/
theorem validator_signatures_witness :
    (validate_audio_file
      (fun _ => some ([82, 73, 70, 70, 0, 0, 0, 0, 87, 65, 86, 69] ++
        List.replicate 88 0)) "a" =
      (true, "Valid WAV audio (" ++ toString (12 + (List.replicate 88 0 : List Nat).length) ++ " bytes)")) ∧
    (validate_image_file
      (fun _ => some (doctypeHtmlB ++ List.replicate 85 0)) "b" =
      (false, "File contains HTML/XML (likely an error page)")) ∧
    (validate_audio_file
      (fun _ => some (doctypeHtmlB ++ List.replicate 85 0)) "b" =
      (false, "File contains HTML (likely an error page)")) := by
  refine ⟨?_, ?_, ?_⟩
  · exact validator_signatures.1 _ "a" 0 0 0 0 (List.replicate 88 0) rfl
      (by simp)
  · exact ((validator_signatures.2 _ "b" (List.replicate 85 0) rfl).2.2
      (by simp)).1
  · exact ((validator_signatures.2 _ "b" (List.replicate 85 0) rfl).2.2
      (by simp)).2

/-! ## Polling-loop lemmas -/

/-- An observation that leaves the loop polling: a failed history request,
a caught transport exception, or a history mapping without the correlation
id. -/
def skips (o : HistObs) (pid : PyVal) : Bool :=
  match o with
  | HistObs.ok h => (histLookup h pid).isNone
  | HistObs.httpFail => true
  | HistObs.reqExn => true
  | HistObs.exn _ => false

/-- The sleep charged by a skipped iteration (5 s after a transport
exception, 2 s otherwise). -/
def skipCharge (o : HistObs) : Nat :=
  match o with
  | HistObs.reqExn => 5
  | _ => 2

/-- Total sleep charged by iterations `i0, …, i0 + j − 1`. -/
def chargeSum (obs : Nat → HistObs) (i0 : Nat) : Nat → Nat
  | 0 => 0
  | j + 1 => skipCharge (obs i0) + chargeSum obs (i0 + 1) j

/-- Every iteration charges at least two seconds. -/
theorem chargeSum_lower (obs : Nat → HistObs) :
    ∀ (j i0 : Nat), 2 * j ≤ chargeSum obs i0 j := by
  intro j
  induction j with
  | zero => intro i0; simp [chargeSum]
  | succ j ih =>
    intro i0
    have h2 : 2 ≤ skipCharge (obs i0) := by
      cases obs i0 <;> simp [skipCharge]
    have := ih (i0 + 1)
    simp only [chargeSum]
    omega

/-- If the first `j` iterations skip and the `j`-th observation is a
history containing the correlation id, the loop returns the entry's
terminal outcome — provided the charged sleep stays under the timeout and
the fuel exceeds `j`. -/
theorem pollLoop_reach (obs : Nat → HistObs) (pid : PyVal) (nid : Nat)
    (timeout : Nat) (h entry : PyVal) :
    ∀ (j i0 fuel elapsed : Nat),
      (∀ k, k < j → skips (obs (i0 + k)) pid = true) →
      obs (i0 + j) = HistObs.ok h →
      histLookup h pid = some entry →
      j < fuel →
      elapsed + chargeSum obs i0 j < timeout →
      pollLoop obs pid nid timeout fuel i0 elapsed = pollEntry entry nid := by
  intro j
  induction j with
  | zero =>
    intro i0 fuel elapsed hskip hobs hent hfuel htime
    obtain ⟨fuel', rfl⟩ : ∃ f, fuel = f + 1 := ⟨fuel - 1, by omega⟩
    have helapsed : elapsed < timeout := by
      simp only [chargeSum] at htime; omega
    rw [Nat.add_zero] at hobs
    rw [pollLoop, if_pos helapsed, hobs]
    simp only [hent]
  | succ j ih =>
    intro i0 fuel elapsed hskip hobs hent hfuel htime
    obtain ⟨fuel', rfl⟩ : ∃ f, fuel = f + 1 := ⟨fuel - 1, by omega⟩
    have helapsed : elapsed < timeout := by
      simp only [chargeSum] at htime; omega
    have hskip0 : skips (obs i0) pid = true := by
      have := hskip 0 (by omega)
      rwa [Nat.add_zero] at this
    have hskip' : ∀ k, k < j → skips (obs (i0 + 1 + k)) pid = true := by
      intro k hk
      have := hskip (k + 1) (by omega)
      rwa [show i0 + (k + 1) = i0 + 1 + k by omega] at this
    have hobs' : obs (i0 + 1 + j) = HistObs.ok h := by
      rwa [show i0 + (j + 1) = i0 + 1 + j by omega] at hobs
    have hfuel' : j < fuel' := by omega
    cases hcur : obs i0 with
    | ok h0 =>
      have hnone : histLookup h0 pid = none := by
        have := hskip0
        rw [hcur] at this
        simpa [skips, Option.isNone_iff_eq_none] using this
      have htime' : elapsed + 2 + chargeSum obs (i0 + 1) j < timeout := by
        simp only [chargeSum, hcur, skipCharge] at htime; omega
      rw [pollLoop, if_pos helapsed, hcur]
      simp only [hnone]
      exact ih (i0 + 1) fuel' (elapsed + 2) hskip' hobs' hent hfuel' htime'
    | httpFail =>
      have htime' : elapsed + 2 + chargeSum obs (i0 + 1) j < timeout := by
        simp only [chargeSum, hcur, skipCharge] at htime; omega
      rw [pollLoop, if_pos helapsed, hcur]
      exact ih (i0 + 1) fuel' (elapsed + 2) hskip' hobs' hent hfuel' htime'
    | reqExn =>
      have htime' : elapsed + 5 + chargeSum obs (i0 + 1) j < timeout := by
        simp only [chargeSum, hcur, skipCharge] at htime; omega
      rw [pollLoop, if_pos helapsed, hcur]
      exact ih (i0 + 1) fuel' (elapsed + 5) hskip' hobs' hent hfuel' htime'
    | exn m =>
      rw [hcur] at hskip0
      simp [skips] at hskip0

/-- If every observation skips (the correlation id never appears and no
iteration raises), the loop can only time out. -/
theorem pollLoop_allSkip (obs : Nat → HistObs) (pid : PyVal) (nid : Nat)
    (timeout : Nat) (hAll : ∀ k, skips (obs k) pid = true) :
    ∀ (fuel i0 elapsed : Nat),
      pollLoop obs pid nid timeout fuel i0 elapsed =
        PollOutcome.TimedOut timeout := by
  intro fuel
  induction fuel with
  | zero => intro i0 elapsed; rw [pollLoop]
  | succ f ih =>
    intro i0 elapsed
    by_cases h : elapsed < timeout
    · rw [pollLoop, if_pos h]
      cases hcur : obs i0 with
      | ok h0 =>
        have := hAll i0
        rw [hcur] at this
        have hnone : histLookup h0 pid = none := by
          simpa [skips, Option.isNone_iff_eq_none] using this
        simp only [hnone]
        exact ih (i0 + 1) (elapsed + 2)
      | httpFail => exact ih (i0 + 1) (elapsed + 2)
      | reqExn => exact ih (i0 + 1) (elapsed + 5)
      | exn m =>
        have := hAll i0
        rw [hcur] at this
        simp [skips] at this
    · rw [pollLoop, if_neg h]

/-- The error-status branch never produces a success outcome: whatever it
returns is a `Failed`. -/
theorem statusCheckObj_isFailed (fsE : List (String × PyVal)) (o : PollOutcome)
    (h : statusCheckObj fsE = some o) : ∃ m, o = PollOutcome.Failed m := by
  unfold statusCheckObj at h
  repeat' split at h
  all_goals first
    | exact ⟨_, (Option.some.inj h).symm⟩
    | exact ⟨_, rfl⟩
    | cases h

/-- C2: if, after any number of uneventful polling iterations within the
time budget, the history maps the correlation id to an entry with no error
status whose outputs hold the target node with one artifact named
`result.mp4`, the poll completes with exactly that filename. -/
theorem poll_completed_result_mp4
    (obs : Nat → HistObs) (pid : PyVal) (nid : Nat) (j : Nat) (h : PyVal)
    (fsE outs nofs gfs : List (String × PyVal))
    (hskip : ∀ k, k < j → skips (obs k) pid = true)
    (htime : chargeSum obs 0 j < 600)
    (hobs : obs j = HistObs.ok h)
    (hent : histLookup h pid = some (PyVal.dict fsE))
    (hnoerr : statusCheckObj fsE = none)
    (houts : lookupL fsE "outputs" = some (PyVal.dict outs))
    (hnode : lookupL outs (toString nid) = some (PyVal.dict nofs))
    (hgifs : lookupL nofs "gifs" = some (PyVal.list [PyVal.dict gfs]))
    (hfile : lookupL gfs "filename" = some (PyVal.str "result.mp4")) :
    poll_result obs pid nid 600 =
      PollOutcome.Completed (PyVal.str "result.mp4") := by
  have hfuel : j < 600 := by
    have := chargeSum_lower obs j 0
    omega
  rw [poll_result]
  rw [pollLoop_reach obs pid nid 600 h (PyVal.dict fsE) j 0 600 0
    (by intro k hk; simpa using hskip k hk)
    (by simpa using hobs) hent hfuel (by simpa using htime)]
  simp [pollEntry, hnoerr, outputCheckObj, houts, hnode, gifsGate, hgifs,
    pyLen?, extractFilename, hfile]

/-- C2 witness: a history holding the id at iteration 0 with the expected
output shape polls to `Completed "result.mp4"`. -/
theorem poll_completed_result_mp4_witness :
    poll_result
      (fun _ => HistObs.ok (PyVal.dict [("p1",
        PyVal.dict [("outputs", PyVal.dict [("221",
          PyVal.dict [("gifs", PyVal.list [PyVal.dict [("filename",
            PyVal.str "result.mp4")]])])])])]))
      (PyVal.str "p1") 221 600 =
      PollOutcome.Completed (PyVal.str "result.mp4") :=
  poll_completed_result_mp4 _ _ 221 0 _ _ _ _ _
    (fun k hk => absurd hk (Nat.not_lt_zero k))
    (by simp [chargeSum]) rfl rfl rfl rfl rfl rfl rfl

/-- C4: a history entry with `status_str = "error"` and one
`execution_error` message naming `KSampler` / `CUDA OOM` makes the poll
fail with exactly `"Workflow execution error: KSampler: CUDA OOM"`. -/
theorem poll_execution_error_message
    (obs : Nat → HistObs) (pid : PyVal) (nid : Nat) (h : PyVal)
    (fsE sfs infoFs : List (String × PyVal))
    (hobs : obs 0 = HistObs.ok h)
    (hent : histLookup h pid = some (PyVal.dict fsE))
    (hstatus : lookupL fsE "status" = some (PyVal.dict sfs))
    (hstr : lookupL sfs "status_str" = some (PyVal.str "error"))
    (hmsgs : lookupL sfs "messages" = some (PyVal.list
      [PyVal.list [PyVal.str "execution_error", PyVal.dict infoFs]]))
    (hnt : lookupL infoFs "node_type" = some (PyVal.str "KSampler"))
    (hex : lookupL infoFs "exception_message" = some (PyVal.str "CUDA OOM")) :
    poll_result obs pid nid 600 =
      PollOutcome.Failed "Workflow execution error: KSampler: CUDA OOM" := by
  rw [poll_result]
  rw [pollLoop_reach obs pid nid 600 h (PyVal.dict fsE) 0 0 600 0
    (fun k hk => absurd hk (Nat.not_lt_zero k)) (by simpa using hobs) hent
    (by omega) (by simp [chargeSum])]
  simp [pollEntry, statusCheckObj, hstatus, hstr, pyEqStr, hmsgs, pyIter?,
    collectDetails, msgDetail, hnt, hex, pyStr]
  rfl

/-- C4 witness: the concrete KSampler / CUDA OOM error entry polls to the
stated failure message. -/
theorem poll_execution_error_message_witness :
    poll_result
      (fun _ => HistObs.ok (PyVal.dict [("p1",
        PyVal.dict [("status", PyVal.dict [("status_str", PyVal.str "error"),
          ("messages", PyVal.list [PyVal.list [PyVal.str "execution_error",
            PyVal.dict [("node_type", PyVal.str "KSampler"),
              ("exception_message", PyVal.str "CUDA OOM")]]])])])]))
      (PyVal.str "p1") 221 600 =
      PollOutcome.Failed "Workflow execution error: KSampler: CUDA OOM" :=
  poll_execution_error_message _ _ 221 _ _ _ _
    rfl rfl rfl rfl rfl rfl rfl

/-- C9: whenever the entry's status block carries `status_str = "error"`,
the poll outcome on that entry is a failure — regardless of what the
outputs hold — and a success outcome is impossible. -/
theorem error_status_precedence
    (fsE sfs : List (String × PyVal)) (nid : Nat)
    (hstatus : lookupL fsE "status" = some (PyVal.dict sfs))
    (hstr : lookupL sfs "status_str" = some (PyVal.str "error")) :
    (∃ m, pollEntry (PyVal.dict fsE) nid = PollOutcome.Failed m) ∧
    ∀ v, pollEntry (PyVal.dict fsE) nid ≠ PollOutcome.Completed v := by
  have hsome : ∃ o, statusCheckObj fsE = some o := by
    unfold statusCheckObj
    simp only [hstatus, hstr, Option.getD_some]
    rw [if_pos (show pyEqStr (PyVal.str "error") "error" = true from rfl)]
    split
    · exact ⟨_, rfl⟩
    · split
      · exact ⟨_, rfl⟩
      · split
        · exact ⟨_, rfl⟩
        · exact ⟨_, rfl⟩
  obtain ⟨o, ho⟩ := hsome
  obtain ⟨m, rfl⟩ := statusCheckObj_isFailed fsE o ho
  constructor
  · exact ⟨m, by simp [pollEntry, ho]⟩
  · intro v hv
    simp [pollEntry, ho] at hv

/-- C9 witness: an entry with an error status and a perfectly formed
output artifact still fails. -/
theorem error_status_precedence_witness :
    (∃ m, pollEntry (PyVal.dict
      [("status", PyVal.dict [("status_str", PyVal.str "error")]),
       ("outputs", PyVal.dict [("221", PyVal.dict [("gifs",
         PyVal.list [PyVal.dict [("filename", PyVal.str "result.mp4")]])])])])
      221 = PollOutcome.Failed m) ∧
    ∀ v, pollEntry (PyVal.dict
      [("status", PyVal.dict [("status_str", PyVal.str "error")]),
       ("outputs", PyVal.dict [("221", PyVal.dict [("gifs",
         PyVal.list [PyVal.dict [("filename", PyVal.str "result.mp4")]])])])])
      221 ≠ PollOutcome.Completed v :=
  error_status_precedence _ _ 221 rfl rfl

/-- Inversion of the `gifs` gate: passing it forces the node output to be
a dict whose `"gifs"` value is the carried value. -/
theorem gifsGate_yes_inv (w gv : PyVal) (h : gifsGate w = GifsGate.yes gv) :
    ∃ nofs, w = PyVal.dict nofs ∧ lookupL nofs "gifs" = some gv := by
  cases w with
  | dict nofs =>
    refine ⟨nofs, rfl, ?_⟩
    simp only [gifsGate] at h
    cases hg : lookupL nofs "gifs" with
    | none => simp only [hg] at h; cases h
    | some gv2 =>
      simp only [hg] at h
      cases hl : pyLen? gv2 with
      | none => simp only [hl] at h; cases h
      | some n =>
        cases n with
        | zero => simp only [hl] at h; cases h
        | succ k => simp only [hl] at h; cases h; rfl
  | str s => simp only [gifsGate] at h; split at h <;> cases h
  | list xs => simp only [gifsGate] at h; split at h <;> cases h
  | int n => simp only [gifsGate] at h; cases h
  | float q => simp only [gifsGate] at h; cases h
  | bool b => simp only [gifsGate] at h; cases h
  | pynone => simp only [gifsGate] at h; cases h

/-- C10: success is keyed on one literal output shape.  (a) A `Completed`
outcome forces the entry's outputs to be a dict holding the stringified
node id with a dict whose `"gifs"` value is a non-empty list headed by a
dict carrying the returned `"filename"`.  (b) A non-error entry with an
empty outputs mapping fails with "no outputs".  (c) A non-error entry
whose outputs are non-empty but whose target node lacks a `"gifs"` key (or
has an empty `"gifs"` list) fails naming the nodes that did produce
output. -/
theorem completion_output_shape :
    (∀ (fsE : List (String × PyVal)) (nid : Nat) (v : PyVal),
      pollEntry (PyVal.dict fsE) nid = PollOutcome.Completed v →
      ∃ (outs nofs gfs : List (String × PyVal)) (grest : List PyVal),
        (lookupL fsE "outputs").getD (PyVal.dict []) = PyVal.dict outs ∧
        (lookupL outs (toString nid)).getD (PyVal.dict []) = PyVal.dict nofs ∧
        lookupL nofs "gifs" = some (PyVal.list (PyVal.dict gfs :: grest)) ∧
        lookupL gfs "filename" = some v) ∧
    (∀ (fsE : List (String × PyVal)) (nid : Nat),
      statusCheckObj fsE = none →
      (lookupL fsE "outputs").getD (PyVal.dict []) = PyVal.dict [] →
      pollEntry (PyVal.dict fsE) nid =
        PollOutcome.Failed "Workflow completed but produced no outputs") ∧
    (∀ (fsE outs nofs : List (String × PyVal)) (nid : Nat),
      statusCheckObj fsE = none →
      (lookupL fsE "outputs").getD (PyVal.dict []) = PyVal.dict outs →
      outs ≠ [] →
      (lookupL outs (toString nid)).getD (PyVal.dict []) = PyVal.dict nofs →
      (lookupL nofs "gifs" = none ∨ lookupL nofs "gifs" = some (PyVal.list [])) →
      pollEntry (PyVal.dict fsE) nid =
        PollOutcome.Failed ("Node " ++ toString nid ++
          " has no output. Available outputs from nodes: " ++
          availableNodesStr (outs.map Prod.fst))) := by
  refine ⟨?_, ?_, ?_⟩
  · intro fsE nid v h
    unfold pollEntry at h
    cases hsc : statusCheckObj fsE with
    | some o =>
      obtain ⟨m, rfl⟩ := statusCheckObj_isFailed fsE o hsc
      simp only [hsc] at h
      cases h
    | none =>
      simp only [hsc] at h
      unfold outputCheckObj at h
      cases ho : (lookupL fsE "outputs").getD (PyVal.dict []) with
      | dict outs =>
        simp only [ho] at h
        cases hgg : gifsGate ((lookupL outs (toString nid)).getD (PyVal.dict [])) with
        | exn m => simp only [hgg] at h; cases h
        | no =>
          simp only [hgg] at h
          by_cases hoe : outs.isEmpty = true
          · rw [if_pos hoe] at h; cases h
          · rw [if_neg hoe] at h; cases h
        | yes gv =>
          simp only [hgg] at h
          obtain ⟨nofs, hno, hg⟩ := gifsGate_yes_inv _ gv hgg
          cases gv with
          | list gl =>
            cases gl with
            | nil => simp [extractFilename] at h
            | cons g grest =>
              cases g with
              | dict gfs =>
                cases hf : lookupL gfs "filename" with
                | none => simp only [extractFilename, hf] at h; cases h
                | some v2 =>
                  simp only [extractFilename, hf] at h
                  cases h
                  exact ⟨outs, nofs, gfs, grest, rfl, hno, hg, hf⟩
              | str s => simp [extractFilename] at h
              | int n => simp [extractFilename] at h
              | float q => simp [extractFilename] at h
              | bool b => simp [extractFilename] at h
              | pynone => simp [extractFilename] at h
              | list ys => simp [extractFilename] at h
          | str s => simp [extractFilename] at h
          | dict dfs => simp [extractFilename] at h
          | int n => simp [extractFilename] at h
          | float q => simp [extractFilename] at h
          | bool b => simp [extractFilename] at h
          | pynone => simp [extractFilename] at h
      | str s => simp only [ho] at h; cases h
      | list xs => simp only [ho] at h; cases h
      | int n => simp only [ho] at h; cases h
      | float q => simp only [ho] at h; cases h
      | bool b => simp only [ho] at h; cases h
      | pynone => simp only [ho] at h; cases h
  · intro fsE nid hsc ho
    simp [pollEntry, hsc, outputCheckObj, ho, gifsGate, lookupL]
  · intro fsE outs nofs nid hsc ho hne hno hg
    have hoe : outs.isEmpty = false := by
      cases outs with
      | nil => exact absurd rfl hne
      | cons a l => rfl
    rcases hg with hg | hg <;>
      simp [pollEntry, hsc, outputCheckObj, ho, hno, gifsGate, hg, hoe, pyLen?]

/-- C10 witness: an entry with empty outputs fails with "no outputs"; an
entry whose only producing node is "5" fails naming it; the well-shaped
entry completes, exhibiting the inverted shape. -/
theorem completion_output_shape_witness :
    pollEntry (PyVal.dict []) 221 =
      PollOutcome.Failed "Workflow completed but produced no outputs" ∧
    pollEntry (PyVal.dict [("outputs", PyVal.dict [("5", PyVal.dict [])])]) 221 =
      PollOutcome.Failed ("Node " ++ toString 221 ++
        " has no output. Available outputs from nodes: " ++
        availableNodesStr ["5"]) ∧
    (∃ (outs nofs gfs : List (String × PyVal)) (grest : List PyVal),
      (lookupL [("outputs", PyVal.dict [("221", PyVal.dict [("gifs",
        PyVal.list [PyVal.dict [("filename", PyVal.str "result.mp4")]])])])]
        "outputs").getD (PyVal.dict []) = PyVal.dict outs ∧
      (lookupL outs (toString 221)).getD (PyVal.dict []) = PyVal.dict nofs ∧
      lookupL nofs "gifs" = some (PyVal.list (PyVal.dict gfs :: grest)) ∧
      lookupL gfs "filename" = some (PyVal.str "result.mp4")) :=
  ⟨completion_output_shape.2.1 [] 221 rfl rfl,
   completion_output_shape.2.2 _ [("5", PyVal.dict [])] [] 221 rfl rfl
     (by simp) rfl (Or.inl rfl),
   completion_output_shape.1 _ 221 (PyVal.str "result.mp4") rfl⟩

/-! ## Binder frame lemmas (C7) -/

/-- The node-identifier list of a workflow graph. -/
def nodeKeys (w : PyVal) : List String :=
  match w with
  | PyVal.dict nodes => nodes.map Prod.fst
  | _ => []

/-- The value bound at `w[node]["inputs"][inp]`, when that chain of dicts
exists. -/
def inputVal (w : PyVal) (node inp : String) : Option PyVal :=
  match w with
  | PyVal.dict nodes =>
    match lookupL nodes node with
    | some (PyVal.dict fields) =>
      match lookupL fields "inputs" with
      | some (PyVal.dict ins) => lookupL ins inp
      | _ => none
    | _ => none
  | _ => none

theorem lookupL_setKey_self (fs : List (String × PyVal)) (k : String) (v : PyVal) :
    lookupL (setKey fs k v) k = some v := by
  induction fs with
  | nil => simp [setKey, lookupL]
  | cons p rest ih =>
    obtain ⟨k2, v2⟩ := p
    by_cases h : k2 = k
    · simp [setKey, lookupL, h]
    · simp [setKey, lookupL, h, ih]

theorem lookupL_setKey_other (fs : List (String × PyVal)) (k k2 : String)
    (v : PyVal) (h : k2 ≠ k) : lookupL (setKey fs k v) k2 = lookupL fs k2 := by
  induction fs with
  | nil =>
    simp only [setKey, lookupL]
    rw [if_neg (fun hh : k = k2 => h hh.symm)]
  | cons p rest ih =>
    obtain ⟨k3, v3⟩ := p
    simp only [setKey]
    by_cases h3 : k3 = k
    · rw [if_pos h3]
      simp only [lookupL]
      rw [if_neg (fun hh : k3 = k2 => h (hh ▸ h3)),
        if_neg (fun hh : k3 = k2 => h (hh ▸ h3))]
    · rw [if_neg h3]
      simp only [lookupL]
      by_cases h2 : k3 = k2
      · rw [if_pos h2, if_pos h2]
      · rw [if_neg h2, if_neg h2]
        exact ih

theorem setKey_keys_of_mem (fs : List (String × PyVal)) (k : String) (v : PyVal)
    (h : (lookupL fs k).isSome) :
    (setKey fs k v).map Prod.fst = fs.map Prod.fst := by
  induction fs with
  | nil => simp [lookupL] at h
  | cons p rest ih =>
    obtain ⟨k2, v2⟩ := p
    by_cases hk : k2 = k
    · simp [setKey, hk]
    · simp only [lookupL, if_neg hk] at h
      simp [setKey, hk, ih h]

theorem setKey_of_lookup_eq (fs : List (String × PyVal)) (k : String) (v : PyVal)
    (h : lookupL fs k = some v) : setKey fs k v = fs := by
  induction fs with
  | nil => simp [lookupL] at h
  | cons p rest ih =>
    obtain ⟨k2, v2⟩ := p
    by_cases hk : k2 = k
    · simp only [lookupL, if_pos hk] at h
      simp [setKey, hk, Option.some.inj h]
    · simp only [lookupL, if_neg hk] at h
      simp [setKey, hk, ih h]

/-- Inversion of a successful slot assignment: the workflow, its node and
the node's inputs are dicts, and the result is the triple in-place
update. -/
theorem setInput_ok_inv (w : PyVal) (n i : String) (v w1 : PyVal)
    (h : setInput w n i v = Except.ok w1) :
    ∃ nodes fields ins, w = PyVal.dict nodes ∧
      lookupL nodes n = some (PyVal.dict fields) ∧
      lookupL fields "inputs" = some (PyVal.dict ins) ∧
      w1 = PyVal.dict (setKey nodes n (PyVal.dict (setKey fields "inputs"
        (PyVal.dict (setKey ins i v))))) := by
  cases w with
  | dict nodes =>
    unfold setInput at h
    cases hn : lookupL nodes n with
    | none => simp only [hn] at h; cases h
    | some nodeDef =>
      simp only [hn] at h
      cases nodeDef with
      | dict fields =>
        cases hf : lookupL fields "inputs" with
        | none => simp only [hf] at h; cases h
        | some inputsV =>
          simp only [hf] at h
          cases inputsV with
          | dict ins =>
            exact ⟨nodes, fields, ins, rfl, hn, hf, (Except.ok.inj h).symm⟩
          | str s => cases h
          | int m => cases h
          | float q => cases h
          | bool b => cases h
          | pynone => cases h
          | list xs => cases h
      | str s => cases h
      | int m => cases h
      | float q => cases h
      | bool b => cases h
      | pynone => cases h
      | list xs => cases h
  | str s => cases h
  | int m => cases h
  | float q => cases h
  | bool b => cases h
  | pynone => cases h
  | list xs => cases h

/-- Inversion of a present input value: the same dict chain exists. -/
theorem inputVal_some_inv (w : PyVal) (n i : String) (v : PyVal)
    (h : inputVal w n i = some v) :
    ∃ nodes fields ins, w = PyVal.dict nodes ∧
      lookupL nodes n = some (PyVal.dict fields) ∧
      lookupL fields "inputs" = some (PyVal.dict ins) ∧
      lookupL ins i = some v := by
  cases w with
  | dict nodes =>
    unfold inputVal at h
    cases hn : lookupL nodes n with
    | none => simp only [hn] at h; cases h
    | some nodeDef =>
      simp only [hn] at h
      cases nodeDef with
      | dict fields =>
        cases hf : lookupL fields "inputs" with
        | none => simp only [hf] at h; cases h
        | some inputsV =>
          simp only [hf] at h
          cases inputsV with
          | dict ins => exact ⟨nodes, fields, ins, rfl, hn, hf, h⟩
          | str s => cases h
          | int m => cases h
          | float q => cases h
          | bool b => cases h
          | pynone => cases h
          | list xs => cases h
      | str s => simp only [hn] at h; cases h
      | int m => simp only [hn] at h; cases h
      | float q => simp only [hn] at h; cases h
      | bool b => simp only [hn] at h; cases h
      | pynone => simp only [hn] at h; cases h
      | list xs => simp only [hn] at h; cases h
  | str s => cases h
  | int m => cases h
  | float q => cases h
  | bool b => cases h
  | pynone => cases h
  | list xs => cases h

/-- Re-assigning a slot to the value it already holds leaves the workflow
unchanged. -/
theorem setInput_noop (w : PyVal) (n i : String) (v : PyVal)
    (h : inputVal w n i = some v) : setInput w n i v = Except.ok w := by
  obtain ⟨nodes, fields, ins, rfl, hn, hf, hv⟩ := inputVal_some_inv w n i v h
  unfold setInput
  simp only [hn, hf]
  rw [setKey_of_lookup_eq ins i v hv, setKey_of_lookup_eq fields "inputs"
    (PyVal.dict ins) hf, setKey_of_lookup_eq nodes n (PyVal.dict fields) hn]

/-- Frame property of one slot assignment: node identifiers are preserved,
the designated slot now holds the value, and every other slot is
untouched. -/
theorem setInput_ok_frame (w : PyVal) (n i : String) (v w1 : PyVal)
    (h : setInput w n i v = Except.ok w1) :
    nodeKeys w1 = nodeKeys w ∧ inputVal w1 n i = some v ∧
    (∀ n2 i2, ¬(n2 = n ∧ i2 = i) → inputVal w1 n2 i2 = inputVal w n2 i2) := by
  obtain ⟨nodes, fields, ins, rfl, hn, hf, rfl⟩ := setInput_ok_inv w n i v w1 h
  refine ⟨?_, ?_, ?_⟩
  · simp only [nodeKeys]
    exact setKey_keys_of_mem nodes n _ (by rw [hn]; rfl)
  · simp only [inputVal, lookupL_setKey_self]
  · intro n2 i2 hne
    by_cases hn2 : n2 = n
    · subst hn2
      have hi2 : i2 ≠ i := fun hh => hne ⟨rfl, hh⟩
      simp only [inputVal, lookupL_setKey_self, lookupL_setKey_self, hn, hf]
      rw [lookupL_setKey_other ins i i2 v hi2]
    · simp only [inputVal]
      rw [lookupL_setKey_other nodes n n2 _ hn2]

/-- Frame property of a whole binding pass: node identifiers are
preserved and every slot outside the assignment list is untouched. -/
theorem bindSlots_frame : ∀ (slots : List (String × String × PyVal)) (w w2 : PyVal),
    bindSlots w slots = Except.ok w2 →
    nodeKeys w2 = nodeKeys w ∧
    (∀ n i, (∀ t ∈ slots, ¬(t.1 = n ∧ t.2.1 = i)) →
      inputVal w2 n i = inputVal w n i) := by
  intro slots
  induction slots with
  | nil =>
    intro w w2 h
    cases Except.ok.inj h
    exact ⟨rfl, fun _ _ _ => rfl⟩
  | cons t rest ih =>
    obtain ⟨n1, i1, v1⟩ := t
    intro w w2 h
    unfold bindSlots at h
    cases hset : setInput w n1 i1 v1 with
    | error e => simp only [hset] at h; cases h
    | ok w1 =>
      simp only [hset] at h
      obtain ⟨hk1, hv1, hfr1⟩ := setInput_ok_frame w n1 i1 v1 w1 hset
      obtain ⟨hk2, hfr2⟩ := ih w1 w2 h
      refine ⟨hk2.trans hk1, ?_⟩
      intro n i hni
      have h1 : ¬(n1 = n ∧ i1 = i) :=
        hni (n1, i1, v1) (List.mem_cons_self _ _)
      rw [hfr2 n i (fun t ht => hni t (List.mem_cons_of_mem _ ht))]
      exact hfr1 n i (fun hc => h1 ⟨hc.1.symm, hc.2.symm⟩)

/-- A slot value not named by the assignment list survives a binding
pass. -/
theorem bindSlots_keep (slots : List (String × String × PyVal)) (w w2 : PyVal)
    (n i : String) (v : PyVal) (h : bindSlots w slots = Except.ok w2)
    (hni : ∀ t ∈ slots, ¬(t.1 = n ∧ t.2.1 = i))
    (hv : inputVal w n i = some v) : inputVal w2 n i = some v := by
  rw [(bindSlots_frame slots w w2 h).2 n i hni]
  exact hv

/-- A binding pass over pairwise-distinct slots is idempotent: re-binding
its own output returns that output unchanged. -/
theorem bindSlots_idem : ∀ (slots : List (String × String × PyVal)),
    (slots.map (fun t => (t.1, t.2.1))).Nodup →
    ∀ w w2, bindSlots w slots = Except.ok w2 →
      bindSlots w2 slots = Except.ok w2 := by
  intro slots
  induction slots with
  | nil =>
    intro _ w w2 h
    cases Except.ok.inj h
    rfl
  | cons t rest ih =>
    obtain ⟨n1, i1, v1⟩ := t
    intro hnd w w2 h
    rw [List.map_cons] at hnd
    obtain ⟨hnotmem, hndtail⟩ := List.nodup_cons.mp hnd
    unfold bindSlots at h
    cases hset : setInput w n1 i1 v1 with
    | error e => simp only [hset] at h; cases h
    | ok w1 =>
      simp only [hset] at h
      obtain ⟨_, hv1, _⟩ := setInput_ok_frame w n1 i1 v1 w1 hset
      have hnotin : ∀ t ∈ rest, ¬(t.1 = n1 ∧ t.2.1 = i1) := by
        intro t ht hc
        exact hnotmem (List.mem_map.mpr ⟨t, ht, by rw [hc.1, hc.2]⟩)
      have hv2 : inputVal w2 n1 i1 = some v1 :=
        bindSlots_keep rest w1 w2 n1 i1 v1 h hnotin hv1
      have hset2 : setInput w2 n1 i1 v1 = Except.ok w2 :=
        setInput_noop w2 n1 i1 v1 hv2
      unfold bindSlots
      simp only [hset2]
      exact ih hndtail w1 w2 h

/-- C7: a successful binding pass preserves the node-identifier list
(no node added, removed or renamed), leaves every non-designated
`(node, input)` slot unchanged, and re-binding the bound graph with the
same parameters returns it byte-identically. -/
theorem binder_frame (w : PyVal) (p : Params) (image_name audio_name : String)
    (seedR : Int) (g : PyVal)
    (h : bindWorkflow w p image_name audio_name seedR = Except.ok g) :
    nodeKeys g = nodeKeys w ∧
    (∀ n i, (∀ t ∈ slotAssignments p image_name audio_name seedR,
      ¬(t.1 = n ∧ t.2.1 = i)) → inputVal g n i = inputVal w n i) ∧
    bindWorkflow g p image_name audio_name seedR = Except.ok g := by
  have hnd : ((slotAssignments p image_name audio_name seedR).map
      (fun t => (t.1, t.2.1))).Nodup := by
    simp only [slotAssignments, List.map_cons, List.map_nil]
    decide
  obtain ⟨hk, hfr⟩ := bindSlots_frame _ w g h
  exact ⟨hk, hfr, bindSlots_idem _ hnd w g h⟩

/-- A nine-node template carrying exactly the designated nodes with empty
input dicts. -/
def templateC : PyVal :=
  PyVal.dict [("218", PyVal.dict [("inputs", PyVal.dict [])]),
    ("219", PyVal.dict [("inputs", PyVal.dict [])]),
    ("223", PyVal.dict [("inputs", PyVal.dict [])]),
    ("135", PyVal.dict [("inputs", PyVal.dict [])]),
    ("233", PyVal.dict [("inputs", PyVal.dict [])]),
    ("224", PyVal.dict [("inputs", PyVal.dict [])]),
    ("198", PyVal.dict [("inputs", PyVal.dict [])]),
    ("226", PyVal.dict [("inputs", PyVal.dict [])]),
    ("228", PyVal.dict [("inputs", PyVal.dict [])])]

/-- A concrete parameter set for instantiations. -/
def paramsC : Params :=
  ⟨PyVal.str "iu", PyVal.str "au", PyVal.str "vu", PyVal.int 0, PyVal.int 1,
   PyVal.str "p", PyVal.str "n", PyVal.str "16:9", PyVal.str "w", 512, 25, 50,
   4, 7, PyVal.str "s", 1, 1, PyVal.str "add", true⟩

/-- The graph produced by binding `templateC` with `paramsC`. -/
def boundC : PyVal :=
  match bindWorkflow templateC paramsC "i.png" "a.mp3" 7 with
  | Except.ok g => g
  | Except.error _ => PyVal.pynone

/-- C7 witness: binding the concrete template succeeds, preserves its node
list, leaves non-designated slots alone, and is idempotent. -/
theorem binder_frame_witness :
    nodeKeys boundC = nodeKeys templateC ∧
    (∀ n i, (∀ t ∈ slotAssignments paramsC "i.png" "a.mp3" 7,
      ¬(t.1 = n ∧ t.2.1 = i)) → inputVal boundC n i = inputVal templateC n i) ∧
    bindWorkflow boundC paramsC "i.png" "a.mp3" 7 = Except.ok boundC :=
  binder_frame templateC paramsC "i.png" "a.mp3" 7 boundC rfl

/-! ## C3: timeout maps to an overall 500 result -/

/-- A fully valid job payload (all 19 keys, well-typed values). -/
def timeoutJob : PyVal :=
  PyVal.dict [("input", PyVal.dict [
    ("image_url", PyVal.str "iu"), ("audio_url", PyVal.str "au"),
    ("video_upload_url", PyVal.str "vu"),
    ("audio_crop_start_time", PyVal.int 0),
    ("audio_crop_end_time", PyVal.int 1),
    ("positive_prompt", PyVal.str "p"), ("negative_prompt", PyVal.str "n"),
    ("aspect_ratio", PyVal.str "16:9"),
    ("scale_to_length", PyVal.int 512), ("scale_to_side", PyVal.str "w"),
    ("fps", PyVal.int 25), ("num_frames", PyVal.int 50),
    ("embeds_audio_scale", PyVal.int 1),
    ("embeds_cfg_audio_scale", PyVal.int 1),
    ("embeds_multi_audio_type", PyVal.str "add"),
    ("embeds_normalize_loudness", PyVal.bool true),
    ("steps", PyVal.int 4), ("seed", PyVal.int 7),
    ("scheduler", PyVal.str "s")])]

/-- A 100-byte GIF image file. -/
def imageBytesC : List Nat := [71, 73, 70, 56, 55, 97] ++ List.replicate 94 0

/-- A 100-byte ID3 audio file. -/
def audioBytesC : List Nat := [73, 68, 51] ++ List.replicate 97 0

/-- An environment in which every stage before polling succeeds and the
polling observations are the given stream. -/
def timeoutEnv (obs : Nat → HistObs) : Env :=
  { download := fun _ name => (true, "input/" ++ name),
    fs := fun path =>
      if path = "input/input_audio_1000000000000000.mp3" then some audioBytesC
      else some imageBytesC,
    workflowFile := some templateC,
    serverUp := true,
    submit := fun _ => (200, some (PyVal.dict [("prompt_id", PyVal.str "p1")])),
    histObs := obs,
    upload := fun _ _ => (true, "Upload successful"),
    entropy := fun _ => 0 }

/-- The bound workflow produced inside the `timeoutEnv` run. -/
def wC3 : PyVal :=
  match bindWorkflow templateC paramsC "input_image_1000000000000000.png"
      "input_audio_1000000000000000.mp3" 7 with
  | Except.ok g => g
  | Except.error _ => PyVal.pynone

/-- Once the engine has accepted a graph and returned a correlation id, a
timed-out poll produces the overall 500 result whose message carries the
timeout value. -/
theorem handlerEngine_timeout (p : Params) (w : PyVal) (env : Env)
    (ev : List Event) (pid : PyVal)
    (hup : env.serverUp = true)
    (hsub : env.submit w = (200, some (PyVal.dict [("prompt_id", pid)])))
    (hpoll : poll_result env.histObs pid 221 600 = PollOutcome.TimedOut 600) :
    (handlerEngine p w env ev).1 =
      ⟨500, "Workflow failed: Workflow timed out after " ++ toString 600 ++
        " seconds", none⟩ := by
  simp [handlerEngine, hup, hsub, pyContains, lookupL, pyIndex, hpoll]

/-- C3: a polling run in which the correlation id never appears in any
history response (and no iteration raises) times out, and — in any run
whose staging stages all succeed — the overall job result is status 500
with a message containing the 600-second timeout. -/
theorem poll_timeout_overall_500 (env : Env) (obs : Nat → HistObs)
    (job : PyVal) (jfs ji : List (String × PyVal)) (wf g : PyVal)
    (hjob : job = PyVal.dict jfs)
    (hinput : (lookupL jfs "input").getD (PyVal.dict []) = PyVal.dict ji)
    (hall : required_params.filter (fun p => !(lookupL ji p).isSome) = [])
    (hext : extractParams (PyVal.dict ji) = Except.ok paramsC)
    (hent : env.entropy = fun _ => 0)
    (hdl : ∀ u n, env.download u n = (true, "input/" ++ n))
    (hvi : (validate_image_file env.fs
      "input/input_image_1000000000000000.png").1 = true)
    (hva : (validate_audio_file env.fs
      "input/input_audio_1000000000000000.mp3").1 = true)
    (hwf : env.workflowFile = some wf)
    (hbind : bindWorkflow wf paramsC "input_image_1000000000000000.png"
      "input_audio_1000000000000000.mp3" 7 = Except.ok g)
    (hup : env.serverUp = true)
    (hsub : env.submit g =
      (200, some (PyVal.dict [("prompt_id", PyVal.str "p1")])))
    (hobs : env.histObs = obs)
    (hAll : ∀ k, skips (obs k) (PyVal.str "p1") = true) :
    poll_result obs (PyVal.str "p1") 221 600 = PollOutcome.TimedOut 600 ∧
    (handler job env).1 =
      ⟨500, "Workflow failed: Workflow timed out after " ++ toString 600 ++
        " seconds", none⟩ := by
  subst hjob
  have hall2 :
      required_params.filter (fun p => (lookupL ji p).isNone) = [] := by
    simpa using hall
  have hp : poll_result obs (PyVal.str "p1") 221 600 =
      PollOutcome.TimedOut 600 := by
    rw [poll_result]
    exact pollLoop_allSkip obs (PyVal.str "p1") 221 600 hAll 600 0 0
  refine ⟨hp, ?_⟩
  have hpoll2 : poll_result env.histObs (PyVal.str "p1") 221 600 =
      PollOutcome.TimedOut 600 := by rw [hobs]; exact hp
  have hname : toString (generate_random_seed 0) = "1000000000000000" := rfl
  have h1 : handler (PyVal.dict jfs) env = handlerStage2 paramsC env := by
    simp [handler, hinput, missingOf_dict, hall2, hext]
  rw [h1]
  have h2 : handlerStage2 paramsC env =
      handlerEngine paramsC g env
        [Event.download "input_image_1000000000000000.png",
         Event.validate "input/input_image_1000000000000000.png",
         Event.download "input_audio_1000000000000000.mp3",
         Event.validate "input/input_audio_1000000000000000.mp3"] := by
    have hbind2 := hbind
    simp only [paramsC] at hbind2
    simp [handlerStage2, paramsC, resolveSeed, hent, hname, hdl, hvi, hva,
      hwf, hbind2]
  rw [h2]
  exact handlerEngine_timeout paramsC g env _ (PyVal.str "p1") hup hsub hpoll2

/-- C3 witness: with a history stream that never contains the id, the
concrete job and environment produce the timed-out poll and the 500
result. -/
theorem poll_timeout_overall_500_witness :
    poll_result (fun _ => HistObs.ok (PyVal.dict [])) (PyVal.str "p1") 221 600 =
      PollOutcome.TimedOut 600 ∧
    (handler timeoutJob (timeoutEnv (fun _ => HistObs.ok (PyVal.dict [])))).1 =
      ⟨500, "Workflow failed: Workflow timed out after " ++ toString 600 ++
        " seconds", none⟩ :=
  poll_timeout_overall_500 (timeoutEnv (fun _ => HistObs.ok (PyVal.dict [])))
    (fun _ => HistObs.ok (PyVal.dict [])) timeoutJob _ _ templateC wC3
    rfl rfl rfl rfl rfl (fun _ _ => rfl) rfl rfl rfl rfl rfl rfl rfl
    (fun _ => rfl)

/-! ## C5: malformed present fields -/

/-- A payload with all 19 keys present but a non-numeric
`scale_to_length`. -/
def badJob : PyVal :=
  PyVal.dict [("input", PyVal.dict [
    ("image_url", PyVal.str "iu"), ("audio_url", PyVal.str "au"),
    ("video_upload_url", PyVal.str "vu"),
    ("audio_crop_start_time", PyVal.int 0),
    ("audio_crop_end_time", PyVal.int 1),
    ("positive_prompt", PyVal.str "p"), ("negative_prompt", PyVal.str "n"),
    ("aspect_ratio", PyVal.str "16:9"),
    ("scale_to_length", PyVal.str "abc"), ("scale_to_side", PyVal.str "w"),
    ("fps", PyVal.int 25), ("num_frames", PyVal.int 50),
    ("embeds_audio_scale", PyVal.int 1),
    ("embeds_cfg_audio_scale", PyVal.int 1),
    ("embeds_multi_audio_type", PyVal.str "add"),
    ("embeds_normalize_loudness", PyVal.bool true),
    ("steps", PyVal.int 4), ("seed", PyVal.int 7),
    ("scheduler", PyVal.str "s")])]

/-- C5 counterexample: on a payload whose 19 keys are all present but with
the non-numeric string "abc" for `scale_to_length`, the handler returns
status 500 (the `int()` conversion raises), not the 400 the claim
states. -/
theorem malformed_field_counterexample :
    (handler badJob trivialEnv).1.status = 500 ∧
    ¬ ((handler badJob trivialEnv).1.status = 400) := by
  refine ⟨rfl, ?_⟩
  intro h
  have h2 : (500 : Nat) = 400 :=
    (rfl : (500 : Nat) = (handler badJob trivialEnv).1.status).trans h
  exact absurd h2 (by decide)

/-- C5 (amended): with every required key present, a payload whose field
normalization raises is answered with status 500 and a
`Handler exception` message (never 400), before any external operation
runs. -/
theorem malformed_field_500
    (job : PyVal) (jfs ji : List (String × PyVal)) (env : Env) (e : String)
    (hjob : job = PyVal.dict jfs)
    (hinput : (lookupL jfs "input").getD (PyVal.dict []) = PyVal.dict ji)
    (hall : required_params.filter (fun p => !(lookupL ji p).isSome) = [])
    (hext : extractParams (PyVal.dict ji) = Except.error e) :
    (handler job env).1 = ⟨500, "Handler exception: " ++ e, none⟩ ∧
    (handler job env).2 = [] := by
  subst hjob
  have hall2 :
      required_params.filter (fun p => (lookupL ji p).isNone) = [] := by
    simpa using hall
  constructor <;> simp [handler, hinput, missingOf_dict, hall2, hext]

/-- C5 witness: the "abc" payload yields exactly the `int()` ValueError
text with status 500 and no performed operation. -/
theorem malformed_field_500_witness :
    (handler badJob trivialEnv).1 =
      ⟨500, "Handler exception: invalid literal for int() with base 10: \x27abc\x27",
        none⟩ ∧
    (handler badJob trivialEnv).2 = [] :=
  malformed_field_500 badJob _ _ trivialEnv
    "invalid literal for int() with base 10: \x27abc\x27" rfl rfl rfl rfl
